import Mathlib

/-!
Verification development for the resume-analyzer HTTP service (src/server.js).

The server is a single pipeline: multipart upload → structured PDF text
extraction (pdf-parse) → OCR fallback (tesseract.js) → minimum-length gate →
prompt construction → external generative-AI call → two-stage JSON decode →
HTTP response.  We embed that pipeline shallowly: JS strings become `List Char`,
thrown errors become `Except` values carrying the error message, the external
libraries (pdf-parse, tesseract, the AI client) become function parameters,
and every external call the handler makes is recorded in an event trace.
-/

set_option maxRecDepth 8000

namespace ResumeAnalyzer

/-- JS strings are modelled as lists of characters. -/
abbrev Str := List Char

/-- The WhiteSpace/LineTerminator set recognised by ECMAScript
`String.prototype.trim` (space, tab, LF, VT, FF, CR, NBSP, the Unicode
space separators, LS, PS, NNBSP, MMSP, ideographic space, and the BOM). -/
def isJsWS (c : Char) : Bool :=
  c = ' ' || c = '\t' || c = '\n' || c = '\x0b' || c = '\x0c' || c = '\r' ||
  c.toNat = 0xA0 || c.toNat = 0x1680 ||
  (0x2000 ≤ c.toNat && c.toNat ≤ 0x200A) ||
  c.toNat = 0x2028 || c.toNat = 0x2029 || c.toNat = 0x202F ||
  c.toNat = 0x205F || c.toNat = 0x3000 || c.toNat = 0xFEFF

/-- Model of JS `s.trim()`: drop leading and trailing whitespace. -/
def jsTrim (s : Str) : Str :=
  ((s.dropWhile isJsWS).reverse.dropWhile isJsWS).reverse

/-- Model of JS `s.indexOf(c)` for a single character, with `none`
standing for the JS sentinel `-1`. -/
def jsIndexOf : Str → Char → Option Nat
  | [], _ => none
  | c :: cs, t => if c = t then some 0 else (jsIndexOf cs t).map (· + 1)

/-- Model of JS `s.lastIndexOf(c)` for a single character, with `none`
standing for the JS sentinel `-1`. -/
def jsLastIndexOf (s : Str) (t : Char) : Option Nat :=
  (jsIndexOf s.reverse t).map (fun i => s.length - 1 - i)

/-- Model of JS `s.slice(a, b)` for `0 ≤ a`, `0 ≤ b` (the only way the
source calls it): characters from index `a` up to, excluding, index `b`. -/
def jsSlice (s : Str) (a b : Nat) : Str :=
  (s.drop a).take (b - a)

/-- JSON values, as produced by `JSON.parse`.  Numbers are kept as their
source literal (the claims never depend on numeric evaluation), and object
fields are kept in textual order (the inputs in the claims have no
duplicate keys, so JS's last-wins overwrite never fires on them). -/
inductive Json where
  | null : Json
  | bool (b : Bool) : Json
  | num (lit : Str) : Json
  | str (s : Str) : Json
  | arr (xs : List Json) : Json
  | obj (fields : List (Str × Json)) : Json

/-- JSON insignificant whitespace (`JSON.parse` skips exactly these). -/
def jsonWS (c : Char) : Bool :=
  c = ' ' || c = '\t' || c = '\n' || c = '\r'

/-- Skip JSON whitespace. -/
def skipWS : Str → Str
  | [] => []
  | c :: cs => if jsonWS c then skipWS cs else c :: cs

/-- Hex digit value, for `\uXXXX` escapes. -/
def hexDigitVal (c : Char) : Option Nat :=
  if c.isDigit then some (c.toNat - '0'.toNat)
  else if 'a' ≤ c ∧ c ≤ 'f' then some (c.toNat - 'a'.toNat + 10)
  else if 'A' ≤ c ∧ c ≤ 'F' then some (c.toNat - 'A'.toNat + 10)
  else none

/-- Body of a JSON string literal, after the opening quote: returns the
decoded characters and the remainder after the closing quote.  Raw control
characters are rejected, escapes are decoded, exactly as `JSON.parse` does. -/
def parseJStringBody : Str → Option (Str × Str)
  | [] => none
  | '"' :: rest => some ([], rest)
  | '\\' :: '"' :: r => (parseJStringBody r).map (fun p => ('"' :: p.1, p.2))
  | '\\' :: '\\' :: r => (parseJStringBody r).map (fun p => ('\\' :: p.1, p.2))
  | '\\' :: '/' :: r => (parseJStringBody r).map (fun p => ('/' :: p.1, p.2))
  | '\\' :: 'b' :: r => (parseJStringBody r).map (fun p => ('\x08' :: p.1, p.2))
  | '\\' :: 'f' :: r => (parseJStringBody r).map (fun p => ('\x0c' :: p.1, p.2))
  | '\\' :: 'n' :: r => (parseJStringBody r).map (fun p => ('\n' :: p.1, p.2))
  | '\\' :: 'r' :: r => (parseJStringBody r).map (fun p => ('\r' :: p.1, p.2))
  | '\\' :: 't' :: r => (parseJStringBody r).map (fun p => ('\t' :: p.1, p.2))
  | '\\' :: 'u' :: h1 :: h2 :: h3 :: h4 :: r =>
    match hexDigitVal h1, hexDigitVal h2, hexDigitVal h3, hexDigitVal h4 with
    | some a, some b, some c, some d =>
      (parseJStringBody r).map
        (fun p => (Char.ofNat (a * 4096 + b * 256 + c * 16 + d) :: p.1, p.2))
    | _, _, _, _ => none
  | '\\' :: _ => none
  | c :: r =>
    if c.toNat < 32 then none
    else (parseJStringBody r).map (fun p => (c :: p.1, p.2))

/-- Longest digit run and the remainder. -/
def parseDigits (s : Str) : Str × Str :=
  (s.takeWhile Char.isDigit, s.dropWhile Char.isDigit)

/-- Integer part of a JSON number: `0`, or a nonzero digit followed by
digits (a leading zero followed by more digits is not consumed, so such
input fails later on the unconsumed digit, as in `JSON.parse`). -/
def parseIntPart : Str → Option (Str × Str)
  | '0' :: rest => some (['0'], rest)
  | c :: rest =>
    if c.isDigit then
      match parseDigits rest with
      | (d, r) => some (c :: d, r)
    else none
  | [] => none

/-- Optional fraction part `.digits` of a JSON number. -/
def parseFrac : Str → Option (Str × Str)
  | '.' :: rest =>
    match parseDigits rest with
    | ([], _) => none
    | (d, r) => some ('.' :: d, r)
  | s => some ([], s)

/-- Mandatory digit run after an exponent marker. -/
def parseExpDigits (s : Str) : Option (Str × Str) :=
  match parseDigits s with
  | ([], _) => none
  | (d, r) => some (d, r)

/-- Optional exponent part `e[+-]digits` of a JSON number. -/
def parseExp : Str → Option (Str × Str)
  | [] => some ([], [])
  | c :: rest =>
    if c = 'e' || c = 'E' then
      match rest with
      | '+' :: r2 => (parseExpDigits r2).map (fun p => (c :: '+' :: p.1, p.2))
      | '-' :: r2 => (parseExpDigits r2).map (fun p => (c :: '-' :: p.1, p.2))
      | r2 => (parseExpDigits r2).map (fun p => (c :: p.1, p.2))
    else some ([], c :: rest)

/-- Unsigned JSON number literal. -/
def parseNumBody (s : Str) : Option (Str × Str) := do
  let (i, r1) ← parseIntPart s
  let (f, r2) ← parseFrac r1
  let (e, r3) ← parseExp r2
  some (i ++ f ++ e, r3)

/-- JSON number literal with optional leading minus. -/
def parseNumber : Str → Option (Str × Str)
  | '-' :: rest => (parseNumBody rest).map (fun p => ('-' :: p.1, p.2))
  | s => parseNumBody s

/-- Recursive core of the JSON grammar, structural on a fuel bound so the
kernel can evaluate it.  `mode = 0` parses one value at the head of the
input (whitespace already skipped); `mode = 1` parses the comma-separated
items of an array up to `]`, packaged as `Json.arr`; `mode = 2` parses the
comma-separated `"key": value` members of an object up to the closing
brace, packaged as `Json.obj`. -/
def parseCore : Nat → Nat → Str → Option (Json × Str)
  | 0, _, _ => none
  | fuel + 1, 0, s =>
    match s with
    | [] => none
    | 'n' :: 'u' :: 'l' :: 'l' :: r => some (Json.null, r)
    | 't' :: 'r' :: 'u' :: 'e' :: r => some (Json.bool true, r)
    | 'f' :: 'a' :: 'l' :: 's' :: 'e' :: r => some (Json.bool false, r)
    | '"' :: r => (parseJStringBody r).map (fun p => (Json.str p.1, p.2))
    | '[' :: r =>
      match skipWS r with
      | ']' :: r2 => some (Json.arr [], r2)
      | r1 => parseCore fuel 1 r1
    | '{' :: r =>
      match skipWS r with
      | '}' :: r2 => some (Json.obj [], r2)
      | r1 => parseCore fuel 2 r1
    | _ => (parseNumber s).map (fun p => (Json.num p.1, p.2))
  | fuel + 1, 1, s =>
    match parseCore fuel 0 s with
    | none => none
    | some (v, r) =>
      match skipWS r with
      | ',' :: r2 =>
        match parseCore fuel 1 (skipWS r2) with
        | some (Json.arr vs, r3) => some (Json.arr (v :: vs), r3)
        | _ => none
      | ']' :: r2 => some (Json.arr [v], r2)
      | _ => none
  | fuel + 1, 2, s =>
    match s with
    | '"' :: r =>
      match parseJStringBody r with
      | none => none
      | some (k, r1) =>
        match skipWS r1 with
        | ':' :: r2 =>
          match parseCore fuel 0 (skipWS r2) with
          | none => none
          | some (v, r3) =>
            match skipWS r3 with
            | ',' :: r4 =>
              match parseCore fuel 2 (skipWS r4) with
              | some (Json.obj fs, r5) => some (Json.obj ((k, v) :: fs), r5)
              | _ => none
            | '}' :: r4 => some (Json.obj [(k, v)], r4)
            | _ => none
        | _ => none
    | _ => none
  | _ + 1, _ + 3, _ => none

/-- Model of ECMAScript `JSON.parse` applied to a whole string: `none`
models a thrown `SyntaxError`.  The fuel `2 * length + 2` dominates the
parser's recursion depth (each two nested calls consume at least one
character), so it never cuts off a parse that `JSON.parse` would accept. -/
def jsonParse (s : Str) : Option Json :=
  match parseCore (2 * s.length + 2) 0 (skipWS s) with
  | some (j, r) => if skipWS r = [] then some j else none
  | none => none

example : jsonParse ("3".data) = some (Json.num ['3']) := rfl
example : jsonParse ("  \x7b\"atsScore\":10\x7d  ".data) =
    some (Json.obj [("atsScore".data, Json.num ['1', '0'])]) := rfl
example : jsonParse ("  \x7b\"atsScore\":10\x7d  extra text".data) = none := rfl
example : jsonParse ("[1,2]".data) =
    some (Json.arr [Json.num ['1'], Json.num ['2']]) := rfl
example : jsonParse ("\x7b\"a\":[true,null],\"b\":\"x\"\x7d".data) =
    some (Json.obj [("a".data, Json.arr [Json.bool true, Json.null]),
                    ("b".data, Json.str ['x'])]) := rfl
example : jsonParse ("01".data) = none := rfl
example : jsonParse ("\"a\\nb\\u0041\"".data) =
    some (Json.str ['a', '\n', 'b', 'A']) := rfl

/-! ## The pipeline of src/server.js -/

/-- `multer` memory-storage file object: the only fields the handler reads
are `buffer` (the uploaded bytes) and `originalname`. -/
structure UploadedFile where
  buffer : Str
  originalname : Str

/-- The parts of the request the handler reads: `req.file` (absent when no
`resume` file field was sent) and the optional text field
`req.body.targetRole`. -/
structure Req where
  file : Option UploadedFile
  targetRole : Option Str

/-- The three external collaborators, as deterministic functions from
their input to either a result or a thrown error (carrying the error
message).  `pdf` models `pdfParse(buffer)` returning `pdfData.text`
(possibly null, hence `Option`); `ocr` models `Tesseract.recognize`
returning `result.data.text`; `ai` models
`model.generateContent(p).response.text()`. -/
structure Ext where
  pdf : Str → Except Str (Option Str)
  ocr : Str → Except Str Str
  ai : Str → Except Str Str

/-- One external call made while handling a request. -/
inductive Event where
  | pdfCall (buf : Str) : Event
  | ocrCall (buf : Str) : Event
  | aiCall (prompt : Str) : Event

/-- A JSON response body: either `{error: msg}` or the success shape of
line 162-167, which has exactly the four fields
`targetRole`, `fileName`, `extractedChars`, `analysis`. -/
inductive Body where
  | err (msg : Str) : Body
  | ok (targetRole : Str) (fileName : Str) (extractedChars : Nat)
      (analysis : Json) : Body

/-- An HTTP response: status code and JSON body. -/
structure Response where
  status : Nat
  body : Body

/-- Model of JS `x || d` where `x` is an optional string: `undefined`,
`null` and the empty string are falsy, so all of them yield `d`. -/
def jsOrStr (x : Option Str) (d : Str) : Str :=
  match x with
  | none => d
  | some s => if s = [] then d else s

def msgFileNotUploaded : Str := "File not uploaded".data

def msgNoTextFound : Str :=
  "Could not extract text from PDF. Please upload a proper text-based resume.".data

def msgOcrFailedHead : Str := "OCR extraction failed: ".data

def msgTooShort : Str :=
  "Extracted text is too short. Please upload a valid resume PDF.".data

def msgAiFailed : Str := "AI analysis failed. Please try again.".data

def msgNotJson : Str := "Gemini did not return JSON.".data

/-- Stand-in for the engine-specific message of the `SyntaxError` thrown
by the second `JSON.parse` in `askGeminiForJSON` (the code never inspects
it; it only matters that it is an AI-stage error). -/
def msgParseError : Str := "Unexpected token in JSON".data

def defaultTargetRole : Str := "Software Developer (Fresher)".data

/-- Lines 16-33: `extractTextFromImage`.  The `try`/`catch` inside it
catches any error from `Tesseract.recognize`, logs it and returns `""`,
so the function itself never throws (its result is always `Except.ok`);
it performs exactly one OCR call on the buffer it was given. -/
def extractTextFromImage (ocr : Str → Except Str Str) (imageBuffer : Str) :
    Except Str Str × List Event :=
  match ocr imageBuffer with
  | Except.ok t => (Except.ok t, [Event.ocrCall imageBuffer])
  | Except.error _ => (Except.ok [], [Event.ocrCall imageBuffer])

/-- Lines 41-46: the wrapper put around the prompt before the AI call. -/
def jsonOnlyPrompt (prompt : Str) : Str :=
  "\nYou are an API. Return ONLY valid JSON.\nNo markdown. No backticks. No extra explanation.\n\n".data
    ++ prompt ++ "\n".data

/-- Lines 51-61: decode the raw AI reply.  First a strict `JSON.parse`;
on failure, slice from the first `\x7b` to the last `\x7d` inclusive and
parse that, throwing `msgNotJson` when either brace is absent. -/
def decodeAiReply (raw : Str) : Except Str Json :=
  match jsonParse raw with
  | some j => Except.ok j
  | none =>
    match jsIndexOf raw '{', jsLastIndexOf raw '}' with
    | some first, some last =>
      match jsonParse (jsSlice raw first (last + 1)) with
      | some j => Except.ok j
      | none => Except.error msgParseError
    | _, _ => Except.error msgNotJson

/-- Lines 38-62: `askGeminiForJSON`.  Wraps the prompt, calls the AI
client once, and decodes the reply; an error from the client propagates. -/
def askGeminiForJSON (ai : Str → Except Str Str) (prompt : Str) :
    Except Str Json × List Event :=
  match ai (jsonOnlyPrompt prompt) with
  | Except.error e => (Except.error e, [Event.aiCall (jsonOnlyPrompt prompt)])
  | Except.ok raw => (decodeAiReply raw, [Event.aiCall (jsonOnlyPrompt prompt)])

/-- Lines 133-156: the analysis prompt template, with `targetRole` and
`resumeText` interpolated. -/
def buildPrompt (targetRole resumeText : Str) : Str :=
  "\nAnalyze this resume for the target role: \"".data
    ++ targetRole
    ++ "\"\n\nReturn JSON in EXACT shape:\n\x7b\n  \"atsScore\": number (0-100),\n  \"strengths\": [\"...\"],\n  \"weakAreas\": [\"...\"],\n  \"missingSkills\": [\"...\"],\n  \"projectGaps\": [\"...\"],\n  \"quickFixes\": [\"...\"],\n  \"oneLineVerdict\": \"...\"\n\x7d\n\nRules:\n- Be beginner-friendly.\n- Be realistic.\n- Mention projects/deployment/GitHub if missing.\n\nResume Text:\n\"\"\"\n".data
    ++ resumeText
    ++ "\n\"\"\"\n".data

/-- Lines 93-99: the structured-extraction attempt.  `pdfParse` throwing
is caught (leaving `resumeText` as `""`); otherwise the text field is
defaulted through `|| ""` and trimmed. -/
def structuredText (ext : Ext) (buf : Str) : Str :=
  match ext.pdf buf with
  | Except.ok t => jsTrim (jsOrStr t [])
  | Except.error _ => []

/-- Lines 124-175: everything after a candidate `resumeText` is fixed —
the minimum-length gate, the AI call and the final response. -/
def afterExtraction (ext : Ext) (targetRole : Str) (file : UploadedFile)
    (resumeText : Str) (evs : List Event) : Response × List Event :=
  if resumeText = [] ∨ (jsTrim resumeText).length < 50 then
    (⟨400, Body.err msgTooShort⟩, evs)
  else
    let g := askGeminiForJSON ext.ai (buildPrompt targetRole resumeText)
    match g.1 with
    | Except.ok analysis =>
      (⟨200, Body.ok targetRole file.originalname resumeText.length analysis⟩,
       evs ++ g.2)
    | Except.error _ => (⟨500, Body.err msgAiFailed⟩, evs ++ g.2)

/-- Lines 78-176: the `POST /resume/upload` handler, returning the
response together with the trace of external calls it made.  The
`Except.error` arm of the fallback mirrors the handler's
`catch (ocrError)` block; since `extractTextFromImage` never returns an
error, that arm is unreachable when composed as in the source. -/
def handler (ext : Ext) (req : Req) : Response × List Event :=
  match req.file with
  | none => (⟨400, Body.err msgFileNotUploaded⟩, [])
  | some file =>
    let targetRole := jsOrStr req.targetRole defaultTargetRole
    let resumeText := structuredText ext file.buffer
    let evs := [Event.pdfCall file.buffer]
    if resumeText = [] then
      let o := extractTextFromImage ext.ocr file.buffer
      match o.1 with
      | Except.error e =>
        (⟨400, Body.err (msgOcrFailedHead ++ e)⟩, evs ++ o.2)
      | Except.ok t =>
        if t = [] ∨ (jsTrim t).length = 0 then
          (⟨400, Body.err msgNoTextFound⟩, evs ++ o.2)
        else
          afterExtraction ext targetRole file t (evs ++ o.2)
    else
      afterExtraction ext targetRole file resumeText evs

/-! ## Response serialization (`res.json`, i.e. `JSON.stringify`) -/

/-- Lower-case hex digit. -/
def hexChar (n : Nat) : Char :=
  if n < 10 then Char.ofNat ('0'.toNat + n) else Char.ofNat ('a'.toNat + n - 10)

/-- `JSON.stringify` escaping of one string character. -/
def escapeJChar (c : Char) : Str :=
  if c = '"' then ['\\', '"']
  else if c = '\\' then ['\\', '\\']
  else if c = '\x08' then ['\\', 'b']
  else if c = '\t' then ['\\', 't']
  else if c = '\n' then ['\\', 'n']
  else if c = '\x0c' then ['\\', 'f']
  else if c = '\r' then ['\\', 'r']
  else if c.toNat < 32 then
    ['\\', 'u', '0', '0', hexChar (c.toNat / 16), hexChar (c.toNat % 16)]
  else [c]

/-- A quoted, escaped JSON string literal. -/
def quoteJString (s : Str) : Str :=
  '"' :: s.flatMap escapeJChar ++ ['"']

mutual

/-- `JSON.stringify` (compact form, as `res.json` sends it).  Number
values are emitted as their stored literal. -/
def stringifyJson : Json → Str
  | Json.null => "null".data
  | Json.bool true => "true".data
  | Json.bool false => "false".data
  | Json.num l => l
  | Json.str s => quoteJString s
  | Json.arr xs => '[' :: stringifyItems xs ++ [']']
  | Json.obj fs => '{' :: stringifyFields fs ++ ['}']

/-- Comma-separated serialized array items. -/
def stringifyItems : List Json → Str
  | [] => []
  | [x] => stringifyJson x
  | x :: xs => stringifyJson x ++ ',' :: stringifyItems xs

/-- Comma-separated serialized object members. -/
def stringifyFields : List (Str × Json) → Str
  | [] => []
  | [(k, v)] => quoteJString k ++ ':' :: stringifyJson v
  | (k, v) :: fs =>
    quoteJString k ++ ':' :: stringifyJson v ++ ',' :: stringifyFields fs

end

/-- The JSON text `res.json` produces for each response body. -/
def serializeBody : Body → Str
  | Body.err m => stringifyJson (Json.obj [("error".data, Json.str m)])
  | Body.ok tr fn n a =>
    stringifyJson (Json.obj
      [("targetRole".data, Json.str tr),
       ("fileName".data, Json.str fn),
       ("extractedChars".data, Json.num (Nat.repr n).data),
       ("analysis".data, a)])

/-! ## Event-trace helpers -/

/-- Whether an event is an OCR invocation. -/
def isOcrEvent : Event → Bool
  | Event.ocrCall _ => true
  | _ => false

/-- The OCR invocations within a trace. -/
def ocrCalls (evs : List Event) : List Event := evs.filter isOcrEvent

/-! ## Basic lemmas about the embedded pipeline -/

lemma extractTextFromImage_snd (ocr : Str → Except Str Str) (buf : Str) :
    (extractTextFromImage ocr buf).2 = [Event.ocrCall buf] := by
  unfold extractTextFromImage
  cases ocr buf <;> rfl

lemma extractTextFromImage_ok (ocr : Str → Except Str Str) (buf : Str) :
    ∃ t, (extractTextFromImage ocr buf).1 = Except.ok t := by
  unfold extractTextFromImage
  cases ocr buf <;> exact ⟨_, rfl⟩

lemma askGeminiForJSON_snd (ai : Str → Except Str Str) (p : Str) :
    (askGeminiForJSON ai p).2 = [Event.aiCall (jsonOnlyPrompt p)] := by
  unfold askGeminiForJSON
  cases ai (jsonOnlyPrompt p) <;> rfl

lemma ocrCalls_afterExtraction (ext : Ext) (tr : Str) (file : UploadedFile)
    (t : Str) (evs : List Event) :
    ocrCalls (afterExtraction ext tr file t evs).2 = ocrCalls evs := by
  unfold afterExtraction
  split
  · rfl
  · have h2 := askGeminiForJSON_snd ext.ai (buildPrompt tr t)
    cases hg : (askGeminiForJSON ext.ai (buildPrompt tr t)).1 <;>
      simp [hg, ocrCalls, List.filter_append, h2, isOcrEvent]

lemma extractTextFromImage_of_ok (ocr : Str → Except Str Str) (buf t : Str)
    (h : ocr buf = Except.ok t) :
    (extractTextFromImage ocr buf).1 = Except.ok t := by
  unfold extractTextFromImage
  rw [h]

lemma extractTextFromImage_of_error (ocr : Str → Except Str Str) (buf e : Str)
    (h : ocr buf = Except.error e) :
    (extractTextFromImage ocr buf).1 = Except.ok [] := by
  unfold extractTextFromImage
  rw [h]

lemma askGeminiForJSON_fst (ai : Str → Except Str Str) (p raw : Str)
    (h : ai (jsonOnlyPrompt p) = Except.ok raw) :
    (askGeminiForJSON ai p).1 = decodeAiReply raw := by
  unfold askGeminiForJSON
  rw [h]

lemma askGeminiForJSON_fst_err (ai : Str → Except Str Str) (p e : Str)
    (h : ai (jsonOnlyPrompt p) = Except.error e) :
    (askGeminiForJSON ai p).1 = Except.error e := by
  unfold askGeminiForJSON
  rw [h]

lemma handler_no_file (ext : Ext) (req : Req) (h : req.file = none) :
    handler ext req = (⟨400, Body.err msgFileNotUploaded⟩, []) := by
  unfold handler
  rw [h]

lemma handler_structured (ext : Ext) (req : Req) (file : UploadedFile)
    (hf : req.file = some file) (hs : structuredText ext file.buffer ≠ []) :
    handler ext req =
      afterExtraction ext (jsOrStr req.targetRole defaultTargetRole) file
        (structuredText ext file.buffer) [Event.pdfCall file.buffer] := by
  unfold handler
  rw [hf]
  simp only [if_neg hs]

lemma handler_fallback (ext : Ext) (req : Req) (file : UploadedFile) (t : Str)
    (hf : req.file = some file) (hs : structuredText ext file.buffer = [])
    (ht : (extractTextFromImage ext.ocr file.buffer).1 = Except.ok t) :
    handler ext req =
      if t = [] ∨ (jsTrim t).length = 0 then
        (⟨400, Body.err msgNoTextFound⟩,
         [Event.pdfCall file.buffer, Event.ocrCall file.buffer])
      else
        afterExtraction ext (jsOrStr req.targetRole defaultTargetRole) file t
          [Event.pdfCall file.buffer, Event.ocrCall file.buffer] := by
  unfold handler
  rw [hf]
  simp only [if_pos hs, ht, extractTextFromImage_snd]
  rfl

lemma afterExtraction_short (ext : Ext) (tr : Str) (file : UploadedFile)
    (t : Str) (evs : List Event) (h : t = [] ∨ (jsTrim t).length < 50) :
    afterExtraction ext tr file t evs = (⟨400, Body.err msgTooShort⟩, evs) := by
  unfold afterExtraction
  rw [if_pos h]

lemma afterExtraction_ai_ok (ext : Ext) (tr : Str) (file : UploadedFile)
    (t : Str) (evs : List Event) (a : Json)
    (h : ¬(t = [] ∨ (jsTrim t).length < 50))
    (ha : (askGeminiForJSON ext.ai (buildPrompt tr t)).1 = Except.ok a) :
    afterExtraction ext tr file t evs =
      (⟨200, Body.ok tr file.originalname t.length a⟩,
       evs ++ [Event.aiCall (jsonOnlyPrompt (buildPrompt tr t))]) := by
  unfold afterExtraction
  rw [if_neg h]
  simp only [ha, askGeminiForJSON_snd]

lemma afterExtraction_ai_err (ext : Ext) (tr : Str) (file : UploadedFile)
    (t : Str) (evs : List Event) (e : Str)
    (h : ¬(t = [] ∨ (jsTrim t).length < 50))
    (ha : (askGeminiForJSON ext.ai (buildPrompt tr t)).1 = Except.error e) :
    afterExtraction ext tr file t evs =
      (⟨500, Body.err msgAiFailed⟩,
       evs ++ [Event.aiCall (jsonOnlyPrompt (buildPrompt tr t))]) := by
  unfold afterExtraction
  rw [if_neg h]
  simp only [ha, askGeminiForJSON_snd]

lemma jsTrim_length_le (s : Str) : (jsTrim s).length ≤ s.length := by
  unfold jsTrim
  calc ((((s.dropWhile isJsWS).reverse.dropWhile isJsWS)).reverse).length
      = ((s.dropWhile isJsWS).reverse.dropWhile isJsWS).length := by
        exact List.length_reverse _
    _ ≤ (s.dropWhile isJsWS).reverse.length :=
        (List.dropWhile_suffix isJsWS).sublist.length_le
    _ = (s.dropWhile isJsWS).length := List.length_reverse _
    _ ≤ s.length := (List.dropWhile_suffix isJsWS).sublist.length_le

/-- Case analysis of the post-extraction stage: either the length gate
rejects, or the text was non-empty with ≥ 50 trimmed characters and the
request ended in the 500 branch or the 200 branch with that text's
length as `extractedChars`. -/
lemma afterExtraction_classify (ext : Ext) (tr : Str) (file : UploadedFile)
    (t : Str) (evs : List Event) :
    (afterExtraction ext tr file t evs).1 = ⟨400, Body.err msgTooShort⟩
  ∨ (t ≠ [] ∧ 50 ≤ (jsTrim t).length ∧
      ((afterExtraction ext tr file t evs).1 = ⟨500, Body.err msgAiFailed⟩
        ∨ ∃ a, (afterExtraction ext tr file t evs).1 =
            ⟨200, Body.ok tr file.originalname t.length a⟩)) := by
  by_cases h : t = [] ∨ (jsTrim t).length < 50
  · left
    rw [afterExtraction_short ext tr file t evs h]
  · right
    push_neg at h
    refine ⟨h.1, h.2, ?_⟩
    have h2 : ¬(t = [] ∨ (jsTrim t).length < 50) := by
      push_neg
      exact h
    cases ha : (askGeminiForJSON ext.ai (buildPrompt tr t)).1 with
    | error e =>
      left
      rw [afterExtraction_ai_err ext tr file t evs e h2 ha]
    | ok a =>
      right
      exact ⟨a, by rw [afterExtraction_ai_ok ext tr file t evs a h2 ha]⟩

/-- Case analysis of a whole request: the response is one of the four
fixed 400 bodies, the fixed 500 body, or a 200 whose body is the
four-field success shape built from a non-empty text of trimmed length
≥ 50.  (The `OCR extraction failed:` 400 arm of the source is absent:
it is unreachable, because `extractTextFromImage` never throws.) -/
lemma handler_classify (ext : Ext) (req : Req) :
    (handler ext req).1 = ⟨400, Body.err msgFileNotUploaded⟩
  ∨ (handler ext req).1 = ⟨400, Body.err msgNoTextFound⟩
  ∨ (handler ext req).1 = ⟨400, Body.err msgTooShort⟩
  ∨ (handler ext req).1 = ⟨500, Body.err msgAiFailed⟩
  ∨ ∃ file t a, req.file = some file ∧ t ≠ [] ∧ 50 ≤ (jsTrim t).length ∧
      (handler ext req).1 =
        ⟨200, Body.ok (jsOrStr req.targetRole defaultTargetRole)
          file.originalname t.length a⟩ := by
  cases hf : req.file with
  | none =>
    left
    rw [handler_no_file ext req hf]
  | some file =>
    by_cases hs : structuredText ext file.buffer = []
    · obtain ⟨t, ht⟩ := extractTextFromImage_ok ext.ocr file.buffer
      rw [handler_fallback ext req file t hf hs ht]
      by_cases he : t = [] ∨ (jsTrim t).length = 0
      · right; left
        rw [if_pos he]
      · rw [if_neg he]
        rcases afterExtraction_classify ext
            (jsOrStr req.targetRole defaultTargetRole) file t
            [Event.pdfCall file.buffer, Event.ocrCall file.buffer] with
          h | ⟨hne, hlen, h5 | ⟨a, h2⟩⟩
        · right; right; left
          exact h
        · right; right; right; left
          exact h5
        · right; right; right; right
          exact ⟨file, t, a, rfl, hne, hlen, h2⟩
    · rw [handler_structured ext req file hf hs]
      rcases afterExtraction_classify ext
          (jsOrStr req.targetRole defaultTargetRole) file
          (structuredText ext file.buffer) [Event.pdfCall file.buffer] with
        h | ⟨hne, hlen, h5 | ⟨a, h2⟩⟩
      · right; right; left
        exact h
      · right; right; right; left
        exact h5
      · right; right; right; right
        exact ⟨file, structuredText ext file.buffer, a, rfl, hne, hlen, h2⟩

/-! ## Concrete sample inputs used by witnesses and counterexamples -/

/-- Sample uploaded bytes. -/
def sampleBuf : Str := "sample-resume-bytes".data

/-- Sample uploaded file. -/
def sampleFile : UploadedFile :=
  { buffer := sampleBuf, originalname := "resume.pdf".data }

/-- Sample request with no `targetRole` field. -/
def sampleReq : Req := { file := some sampleFile, targetRole := none }

/-- A well-formed raw AI reply. -/
def sampleReply : Str := "\x7b\"atsScore\":10\x7d".data

/-- The JSON value `sampleReply` parses to. -/
def sampleAnalysis : Json := Json.obj [("atsScore".data, Json.num ['1', '0'])]

/-- Externals for a clean structured-extraction run: pdf-parse yields 200
`A`s, OCR would yield nothing, the AI replies with `sampleReply`. -/
def extStructured200 : Ext :=
  { pdf := fun _ => Except.ok (some (List.replicate 200 'A')),
    ocr := fun _ => Except.ok [],
    ai := fun _ => Except.ok sampleReply }

example :
    (handler extStructured200 sampleReq).1 =
      ⟨200, Body.ok defaultTargetRole ("resume.pdf".data) 200 sampleAnalysis⟩ :=
  rfl

example : ocrCalls (handler extStructured200 sampleReq).2 = [] := rfl

/-- Once the length gate passes, the AI client is called: the trace of the
post-extraction stage contains the AI call on the wrapped prompt. -/
lemma aiCall_mem_afterExtraction (ext : Ext) (tr : Str) (file : UploadedFile)
    (t : Str) (evs : List Event) (h : ¬(t = [] ∨ (jsTrim t).length < 50)) :
    Event.aiCall (jsonOnlyPrompt (buildPrompt tr t)) ∈
      (afterExtraction ext tr file t evs).2 := by
  cases ha : (askGeminiForJSON ext.ai (buildPrompt tr t)).1 with
  | error e =>
    rw [afterExtraction_ai_err ext tr file t evs e h ha]
    simp
  | ok a =>
    rw [afterExtraction_ai_ok ext tr file t evs a h ha]
    simp

/-- Inversion: an AI call in the trace of the post-extraction stage means
the length gate passed (the text is non-empty with trimmed length ≥ 50)
and the call's prompt is exactly the wrapped analysis prompt built from
that text. -/
lemma aiCall_afterExtraction_inv (ext : Ext) (tr : Str) (file : UploadedFile)
    (t : Str) (evs : List Event) (p : Str)
    (hevs : ∀ q, Event.aiCall q ∉ evs)
    (h : Event.aiCall p ∈ (afterExtraction ext tr file t evs).2) :
    ¬(t = [] ∨ (jsTrim t).length < 50)
      ∧ p = jsonOnlyPrompt (buildPrompt tr t) := by
  by_cases hg : t = [] ∨ (jsTrim t).length < 50
  · rw [afterExtraction_short ext tr file t evs hg] at h
    exact absurd h (hevs p)
  · refine ⟨hg, ?_⟩
    cases ha : (askGeminiForJSON ext.ai (buildPrompt tr t)).1 with
    | error e =>
      rw [afterExtraction_ai_err ext tr file t evs e hg ha] at h
      rcases List.mem_append.mp h with h1 | h1
      · exact absurd h1 (hevs p)
      · have h2 := List.mem_singleton.mp h1
        injection h2
    | ok a =>
      rw [afterExtraction_ai_ok ext tr file t evs a hg ha] at h
      rcases List.mem_append.mp h with h1 | h1
      · exact absurd h1 (hevs p)
      · have h2 := List.mem_singleton.mp h1
        injection h2

/-- A 200 status out of the post-extraction stage means the length gate
passed. -/
lemma afterExtraction_status200_not_short (ext : Ext) (tr : Str)
    (file : UploadedFile) (t : Str) (evs : List Event)
    (h : (afterExtraction ext tr file t evs).1.status = 200) :
    ¬(t = [] ∨ (jsTrim t).length < 50) := by
  intro hg
  rw [afterExtraction_short ext tr file t evs hg] at h
  simp at h

/-- Request with no `resume` file field. -/
def reqNoFile : Req := { file := none, targetRole := none }

/-- Externals where pdf-parse yields empty text and the OCR engine throws
an internal error with message `boom`. -/
def extOcrBoom : Ext :=
  { pdf := fun _ => Except.ok (some []),
    ocr := fun _ => Except.error ("boom".data),
    ai := fun _ => Except.ok sampleReply }

/-- Externals where pdf-parse yields exactly 49 characters. -/
def extStructured49 : Ext :=
  { pdf := fun _ => Except.ok (some (List.replicate 49 'A')),
    ocr := fun _ => Except.ok [],
    ai := fun _ => Except.ok sampleReply }

/-- Externals where pdf-parse yields exactly 50 characters. -/
def extStructured50 : Ext :=
  { pdf := fun _ => Except.ok (some (List.replicate 50 'A')),
    ocr := fun _ => Except.ok [],
    ai := fun _ => Except.ok sampleReply }

/-- Externals where pdf-parse yields 60 characters padded with whitespace
on both sides. -/
def extStructuredPadded : Ext :=
  { pdf := fun _ => Except.ok (some (' ' :: (List.replicate 60 'C' ++ [' ']))),
    ocr := fun _ => Except.ok [],
    ai := fun _ => Except.ok sampleReply }

/-- Externals where pdf-parse yields whitespace-only text and OCR yields
60 characters with a leading space. -/
def extOcrPath : Ext :=
  { pdf := fun _ => Except.ok (some ("   ".data)),
    ocr := fun _ => Except.ok (' ' :: List.replicate 60 'B'),
    ai := fun _ => Except.ok sampleReply }

/-- Externals where both extraction methods yield empty text. -/
def extAllEmpty : Ext :=
  { pdf := fun _ => Except.ok (some []),
    ocr := fun _ => Except.ok [],
    ai := fun _ => Except.ok sampleReply }

/-- Externals where extraction succeeds but the AI client throws. -/
def extAiDown : Ext :=
  { pdf := fun _ => Except.ok (some (List.replicate 200 'A')),
    ocr := fun _ => Except.ok [],
    ai := fun _ => Except.error ("ai unavailable".data) }

/-! ## The claims -/

/-- Claim C1: if the structured extractor yields non-empty trimmed text,
the OCR extractor is never invoked; if it yields empty or whitespace-only
text, OCR is invoked exactly once, on the original uploaded payload. -/
theorem claim_c1_ocr_iff_structured_empty (ext : Ext) (req : Req)
    (file : UploadedFile) (t : Option Str)
    (hf : req.file = some file) (hp : ext.pdf file.buffer = Except.ok t) :
    (jsTrim (jsOrStr t []) ≠ [] → ocrCalls (handler ext req).2 = [])
  ∧ (jsTrim (jsOrStr t []) = [] →
      ocrCalls (handler ext req).2 = [Event.ocrCall file.buffer]) := by
  have hst : structuredText ext file.buffer = jsTrim (jsOrStr t []) := by
    unfold structuredText
    rw [hp]
  constructor
  · intro hne
    rw [handler_structured ext req file hf (by rw [hst]; exact hne)]
    rw [ocrCalls_afterExtraction]
    rfl
  · intro he
    obtain ⟨t2, ht2⟩ := extractTextFromImage_ok ext.ocr file.buffer
    rw [handler_fallback ext req file t2 hf (by rw [hst]; exact he) ht2]
    by_cases hc : t2 = [] ∨ (jsTrim t2).length = 0
    · rw [if_pos hc]
      rfl
    · rw [if_neg hc, ocrCalls_afterExtraction]
      rfl

/-- Witness for C1, on concrete runs: a 200-character structured
extraction triggers no OCR call; whitespace-only structured extraction
triggers exactly one OCR call on the uploaded bytes. -/
theorem claim_c1_witness :
    ocrCalls (handler extStructured200 sampleReq).2 = []
  ∧ ocrCalls (handler extOcrPath sampleReq).2 = [Event.ocrCall sampleBuf] :=
  ⟨(claim_c1_ocr_iff_structured_empty extStructured200 sampleReq sampleFile
      (some (List.replicate 200 'A')) rfl rfl).1 (by decide),
   (claim_c1_ocr_iff_structured_empty extOcrPath sampleReq sampleFile
      (some ("   ".data)) rfl rfl).2 (by decide)⟩

/-- Claim C2 (code behaviour at the claim's scenario): when pdf-parse
yields empty text and the OCR engine throws an internal error, the
response is the 400 `NoTextFound` body — not the `OCR extraction failed:`
body the claim requires — because `extractTextFromImage` swallows the
error and returns the empty string, so its callers can never observe a
thrown OCR error. -/
theorem claim_c2_code_behavior :
    (handler extOcrBoom sampleReq).1 = ⟨400, Body.err msgNoTextFound⟩
  ∧ ∀ (ocr : Str → Except Str Str) (buf : Str),
      ∃ t, (extractTextFromImage ocr buf).1 = Except.ok t :=
  ⟨rfl, extractTextFromImage_ok⟩

/-- Claim C3, counterexample to its last clause: the raw reply `3`
contains no opening brace, yet the decoder succeeds (the strict parse
accepts it), instead of failing with `InvalidAiResponse`. -/
theorem claim_c3_counterexample :
    jsIndexOf ("3".data) '{' = none
  ∧ decodeAiReply ("3".data) = Except.ok (Json.num ['3']) :=
  ⟨rfl, rfl⟩

/-- Claim C3 as amended: the decoder tries a strict parse first; on
strict-parse failure it parses the slice from the first opening brace to
the last closing brace inclusive; the concrete example decodes to the
`atsScore` object; and a reply with no opening (or no closing) brace
fails with `InvalidAiResponse` provided the strict parse also failed. -/
theorem claim_c3_amended :
    (∀ raw j, jsonParse raw = some j → decodeAiReply raw = Except.ok j)
  ∧ (∀ raw f l, jsonParse raw = none → jsIndexOf raw '{' = some f →
      jsLastIndexOf raw '}' = some l →
      decodeAiReply raw =
        match jsonParse (jsSlice raw f (l + 1)) with
        | some j => Except.ok j
        | none => Except.error msgParseError)
  ∧ decodeAiReply ("  \x7b\"atsScore\":10\x7d  extra text".data) =
      Except.ok sampleAnalysis
  ∧ (∀ raw, jsonParse raw = none →
      (jsIndexOf raw '{' = none ∨ jsLastIndexOf raw '}' = none) →
      decodeAiReply raw = Except.error msgNotJson) := by
  refine ⟨?_, ?_, rfl, ?_⟩
  · intro raw j h
    unfold decodeAiReply
    rw [h]
  · intro raw f l hp hf hl
    unfold decodeAiReply
    rw [hp, hf, hl]
  · intro raw hp hor
    unfold decodeAiReply
    rw [hp]
    rcases hor with h | h
    · rw [h]
    · rw [h]
      cases jsIndexOf raw '{' <;> rfl

/-- Witness for C3 on concrete replies: the wrapped-JSON example decodes
via the brace slice, a brace-free non-JSON reply fails with
`InvalidAiResponse`, and a strictly valid reply is taken by the strict
parse. -/
theorem claim_c3_witness :
    decodeAiReply ("  \x7b\"atsScore\":10\x7d  extra text".data) =
      Except.ok sampleAnalysis
  ∧ decodeAiReply ("just text".data) = Except.error msgNotJson
  ∧ decodeAiReply ("3".data) = Except.ok (Json.num ['3']) :=
  ⟨claim_c3_amended.2.2.1,
   claim_c3_amended.2.2.2 ("just text".data) rfl (Or.inl rfl),
   claim_c3_amended.1 ("3".data) (Json.num ['3']) rfl⟩

/-- Claim C4: extracted text of trimmed length exactly 49 fails with the
`TextTooShort` 400 body, extracted text of trimmed length exactly 50
proceeds to the AI-analysis stage (an AI call appears in the trace), on
both the structured path and the OCR path. -/
theorem claim_c4_threshold (ext : Ext) (req : Req) (file : UploadedFile)
    (hf : req.file = some file) :
    (∀ t, ext.pdf file.buffer = Except.ok t →
      (((jsTrim (jsTrim (jsOrStr t []))).length = 49 →
          (handler ext req).1 = ⟨400, Body.err msgTooShort⟩)
        ∧ ((jsTrim (jsTrim (jsOrStr t []))).length = 50 →
          ∃ p, Event.aiCall p ∈ (handler ext req).2)))
  ∧ (∀ t, structuredText ext file.buffer = [] →
      ext.ocr file.buffer = Except.ok t → t ≠ [] →
      (((jsTrim t).length = 49 →
          (handler ext req).1 = ⟨400, Body.err msgTooShort⟩)
        ∧ ((jsTrim t).length = 50 →
          ∃ p, Event.aiCall p ∈ (handler ext req).2))) := by
  constructor
  · intro t hp
    have hst : structuredText ext file.buffer = jsTrim (jsOrStr t []) := by
      unfold structuredText
      rw [hp]
    constructor
    · intro h49
      have hne : jsTrim (jsOrStr t []) ≠ [] := by
        intro h0
        rw [h0] at h49
        exact absurd h49 (by decide)
      rw [handler_structured ext req file hf (by rw [hst]; exact hne), hst]
      rw [afterExtraction_short _ _ _ _ _ (Or.inr (by rw [h49]; decide))]
    · intro h50
      have hne : jsTrim (jsOrStr t []) ≠ [] := by
        intro h0
        rw [h0] at h50
        exact absurd h50 (by decide)
      rw [handler_structured ext req file hf (by rw [hst]; exact hne), hst]
      refine ⟨_, aiCall_mem_afterExtraction _ _ _ _ _ ?_⟩
      intro hor
      rcases hor with h0 | hlt
      · exact hne h0
      · rw [h50] at hlt
        exact absurd hlt (by decide)
  · intro t hs ho htne
    have ht1 : (extractTextFromImage ext.ocr file.buffer).1 = Except.ok t :=
      extractTextFromImage_of_ok ext.ocr file.buffer t ho
    constructor
    · intro h49
      rw [handler_fallback ext req file t hf hs ht1]
      rw [if_neg (by
        intro hor
        rcases hor with h0 | h0
        · exact htne h0
        · rw [h49] at h0
          exact absurd h0 (by decide))]
      rw [afterExtraction_short _ _ _ _ _ (Or.inr (by rw [h49]; decide))]
    · intro h50
      rw [handler_fallback ext req file t hf hs ht1]
      rw [if_neg (by
        intro hor
        rcases hor with h0 | h0
        · exact htne h0
        · rw [h50] at h0
          exact absurd h0 (by decide))]
      refine ⟨_, aiCall_mem_afterExtraction _ _ _ _ _ ?_⟩
      intro hor
      rcases hor with h0 | hlt
      · exact htne h0
      · rw [h50] at hlt
        exact absurd hlt (by decide)

/-- Witness for C4 on concrete runs: 49 structured characters are
rejected as too short; 50 structured characters reach the AI stage. -/
theorem claim_c4_witness :
    (handler extStructured49 sampleReq).1 = ⟨400, Body.err msgTooShort⟩
  ∧ ∃ p, Event.aiCall p ∈ (handler extStructured50 sampleReq).2 :=
  ⟨((claim_c4_threshold extStructured49 sampleReq sampleFile rfl).1
      (some (List.replicate 49 'A')) rfl).1 (by decide),
   ((claim_c4_threshold extStructured50 sampleReq sampleFile rfl).1
      (some (List.replicate 50 'A')) rfl).2 (by decide)⟩

/-- Claim C5: the text passed downstream to the AI-analysis stage is
never absent or short — every AI call in the request's trace (including
runs that end in a 500) carries a prompt built from a non-empty text of
trimmed length ≥ 50 (hence of length ≥ 50), and when the response is 200
its body is the success shape whose `extractedChars` is that same text's
length, so `extractedChars ≥ 50`; moreover every 200 response did reach
the AI stage. -/
theorem claim_c5_downstream_invariant (ext : Ext) (req : Req) :
    (∀ p, Event.aiCall p ∈ (handler ext req).2 →
      ∃ t, t ≠ [] ∧ 50 ≤ (jsTrim t).length ∧ 50 ≤ t.length ∧
        p = jsonOnlyPrompt (buildPrompt
          (jsOrStr req.targetRole defaultTargetRole) t) ∧
        ((handler ext req).1.status = 200 →
          ∃ file a, req.file = some file ∧
            (handler ext req).1.body =
              Body.ok (jsOrStr req.targetRole defaultTargetRole)
                file.originalname t.length a))
  ∧ ((handler ext req).1.status = 200 →
      ∃ p, Event.aiCall p ∈ (handler ext req).2) := by
  constructor
  · intro p hmem
    cases hf : req.file with
    | none =>
      rw [handler_no_file ext req hf] at hmem
      simp at hmem
    | some file =>
      by_cases hs : structuredText ext file.buffer = []
      · obtain ⟨t2, ht2⟩ := extractTextFromImage_ok ext.ocr file.buffer
        rw [handler_fallback ext req file t2 hf hs ht2] at hmem ⊢
        by_cases he : t2 = [] ∨ (jsTrim t2).length = 0
        · rw [if_pos he] at hmem
          simp at hmem
        · rw [if_neg he] at hmem ⊢
          have hevs : ∀ q, Event.aiCall q ∉
              [Event.pdfCall file.buffer, Event.ocrCall file.buffer] := by
            intro q hq
            simp at hq
          obtain ⟨hguard, hp⟩ :=
            aiCall_afterExtraction_inv ext _ file t2 _ p hevs hmem
          have hng := hguard
          push_neg at hng
          refine ⟨t2, hng.1, hng.2, le_trans hng.2 (jsTrim_length_le t2),
            hp, ?_⟩
          intro h200
          cases ha : (askGeminiForJSON ext.ai (buildPrompt
              (jsOrStr req.targetRole defaultTargetRole) t2)).1 with
          | error e =>
            rw [afterExtraction_ai_err ext _ file t2 _ e hguard ha] at h200
            simp at h200
          | ok a =>
            exact ⟨file, a, rfl, by
              rw [afterExtraction_ai_ok ext _ file t2 _ a hguard ha]⟩
      · rw [handler_structured ext req file hf hs] at hmem ⊢
        have hevs : ∀ q, Event.aiCall q ∉ [Event.pdfCall file.buffer] := by
          intro q hq
          simp at hq
        obtain ⟨hguard, hp⟩ :=
          aiCall_afterExtraction_inv ext _ file _ _ p hevs hmem
        have hng := hguard
        push_neg at hng
        refine ⟨structuredText ext file.buffer, hng.1, hng.2,
          le_trans hng.2 (jsTrim_length_le _), hp, ?_⟩
        intro h200
        cases ha : (askGeminiForJSON ext.ai (buildPrompt
            (jsOrStr req.targetRole defaultTargetRole)
            (structuredText ext file.buffer))).1 with
        | error e =>
          rw [afterExtraction_ai_err ext _ file _ _ e hguard ha] at h200
          simp at h200
        | ok a =>
          exact ⟨file, a, rfl, by
            rw [afterExtraction_ai_ok ext _ file _ _ a hguard ha]⟩
  · intro h200
    cases hf : req.file with
    | none =>
      rw [handler_no_file ext req hf] at h200
      simp at h200
    | some file =>
      by_cases hs : structuredText ext file.buffer = []
      · obtain ⟨t2, ht2⟩ := extractTextFromImage_ok ext.ocr file.buffer
        rw [handler_fallback ext req file t2 hf hs ht2] at h200 ⊢
        by_cases he : t2 = [] ∨ (jsTrim t2).length = 0
        · rw [if_pos he] at h200
          simp at h200
        · rw [if_neg he] at h200 ⊢
          exact ⟨_, aiCall_mem_afterExtraction ext _ file t2 _
            (afterExtraction_status200_not_short ext _ file t2 _ h200)⟩
      · rw [handler_structured ext req file hf hs] at h200 ⊢
        exact ⟨_, aiCall_mem_afterExtraction ext _ file _ _
          (afterExtraction_status200_not_short ext _ file _ _ h200)⟩

/-- Witness for C5: in the concrete 200-character structured run, the AI
call present in the trace carries a prompt built from a witness text that
is non-empty with trimmed length ≥ 50, the 200 body's `extractedChars` is
that text's length, and the 200 status yields an AI call in the trace. -/
theorem claim_c5_witness :
    (∃ t, t ≠ [] ∧ 50 ≤ (jsTrim t).length ∧ 50 ≤ t.length ∧
      jsonOnlyPrompt (buildPrompt defaultTargetRole (List.replicate 200 'A')) =
        jsonOnlyPrompt (buildPrompt
          (jsOrStr sampleReq.targetRole defaultTargetRole) t) ∧
      ((handler extStructured200 sampleReq).1.status = 200 →
        ∃ file a, sampleReq.file = some file ∧
          (handler extStructured200 sampleReq).1.body =
            Body.ok (jsOrStr sampleReq.targetRole defaultTargetRole)
              file.originalname t.length a))
  ∧ ∃ p, Event.aiCall p ∈ (handler extStructured200 sampleReq).2 :=
  ⟨(claim_c5_downstream_invariant extStructured200 sampleReq).1
     (jsonOnlyPrompt (buildPrompt defaultTargetRole (List.replicate 200 'A')))
     (List.Mem.tail _ (List.Mem.head _)),
   (claim_c5_downstream_invariant extStructured200 sampleReq).2 rfl⟩

/-- Claim C6: each extraction-stage failure yields a 400 with its fixed
kind-specific message (missing file, no text found, too short), any
AI-stage failure yields the 500 with the fixed generic body regardless of
the underlying error, every 400 body is one of the extraction messages,
and every 500 body is exactly the generic message (so the underlying AI
error detail never appears in a response body). -/
theorem claim_c6_status_mapping (ext : Ext) (req : Req) :
    (req.file = none →
      handler ext req = (⟨400, Body.err msgFileNotUploaded⟩, []))
  ∧ (∀ file t, req.file = some file → structuredText ext file.buffer = [] →
      ext.ocr file.buffer = Except.ok t → (t = [] ∨ (jsTrim t).length = 0) →
      (handler ext req).1 = ⟨400, Body.err msgNoTextFound⟩)
  ∧ (∀ tr file t evs, (t = [] ∨ (jsTrim t).length < 50) →
      (afterExtraction ext tr file t evs).1 = ⟨400, Body.err msgTooShort⟩)
  ∧ (∀ tr file t evs e, ¬(t = [] ∨ (jsTrim t).length < 50) →
      (askGeminiForJSON ext.ai (buildPrompt tr t)).1 = Except.error e →
      (afterExtraction ext tr file t evs).1 = ⟨500, Body.err msgAiFailed⟩)
  ∧ ((handler ext req).1.status = 400 →
      (handler ext req).1.body = Body.err msgFileNotUploaded
      ∨ (handler ext req).1.body = Body.err msgNoTextFound
      ∨ (handler ext req).1.body = Body.err msgTooShort)
  ∧ ((handler ext req).1.status = 500 →
      (handler ext req).1.body = Body.err msgAiFailed) := by
  refine ⟨?_, ?_, ?_, ?_, ?_, ?_⟩
  · intro h
    exact handler_no_file ext req h
  · intro file t hf hs ho he
    have ht1 : (extractTextFromImage ext.ocr file.buffer).1 = Except.ok t :=
      extractTextFromImage_of_ok ext.ocr file.buffer t ho
    rw [handler_fallback ext req file t hf hs ht1, if_pos he]
  · intro tr file t evs h
    rw [afterExtraction_short ext tr file t evs h]
  · intro tr file t evs e h ha
    rw [afterExtraction_ai_err ext tr file t evs e h ha]
  · intro h
    rcases handler_classify ext req with
      h1 | h1 | h1 | h1 | ⟨file, t, a, hf2, hne, hlen, h2⟩
    · left
      rw [h1]
    · right; left
      rw [h1]
    · right; right
      rw [h1]
    · rw [h1] at h
      exact absurd h (by decide)
    · rw [h2] at h
      simp at h
  · intro h
    rcases handler_classify ext req with
      h1 | h1 | h1 | h1 | ⟨file, t, a, hf2, hne, hlen, h2⟩
    · rw [h1] at h
      exact absurd h (by decide)
    · rw [h1] at h
      exact absurd h (by decide)
    · rw [h1] at h
      exact absurd h (by decide)
    · rw [h1]
    · rw [h2] at h
      simp at h

/-- Witness for C6 on concrete runs: the missing-file 400, the
no-text-found 400, and the fixed 500 produced by a throwing AI client. -/
theorem claim_c6_witness :
    handler extStructured200 reqNoFile = (⟨400, Body.err msgFileNotUploaded⟩, [])
  ∧ (handler extAllEmpty sampleReq).1 = ⟨400, Body.err msgNoTextFound⟩
  ∧ (afterExtraction extAiDown defaultTargetRole sampleFile
      (List.replicate 200 'A') []).1 = ⟨500, Body.err msgAiFailed⟩ :=
  ⟨(claim_c6_status_mapping extStructured200 reqNoFile).1 rfl,
   (claim_c6_status_mapping extAllEmpty sampleReq).2.1 sampleFile [] rfl rfl rfl
     (Or.inl rfl),
   (claim_c6_status_mapping extAiDown sampleReq).2.2.2.1 defaultTargetRole
     sampleFile (List.replicate 200 'A') [] ("ai unavailable".data)
     (by decide) rfl⟩

/-- Claim C7: every 200 response carries the four-field success body
whose `extractedChars` is the extracted text's length; concretely, a
structured extraction of 200 `A`s yields a 200 response with
`extractedChars` 200 and the parsed reply of the AI client as `analysis`,
with OCR never called. -/
theorem claim_c7_success_shape :
    (∀ ext req, (handler ext req).1.status = 200 →
      ∃ (tr fn t : Str) (a : Json),
        (handler ext req).1.body = Body.ok tr fn t.length a)
  ∧ (handler extStructured200 sampleReq).1 =
      ⟨200, Body.ok defaultTargetRole ("resume.pdf".data) 200 sampleAnalysis⟩
  ∧ ocrCalls (handler extStructured200 sampleReq).2 = [] := by
  refine ⟨?_, rfl, rfl⟩
  intro ext req h
  rcases handler_classify ext req with
    h1 | h1 | h1 | h1 | ⟨file, t, a, hf2, hne, hlen, h2⟩
  · rw [h1] at h
    exact absurd h (by decide)
  · rw [h1] at h
    exact absurd h (by decide)
  · rw [h1] at h
    exact absurd h (by decide)
  · rw [h1] at h
    exact absurd h (by decide)
  · exact ⟨_, _, t, a, by rw [h2]⟩

/-- Witness for C7: the universally quantified part applied to the
concrete 200-character structured run, which does return status 200. -/
theorem claim_c7_witness :
    ∃ (tr fn t : Str) (a : Json),
      (handler extStructured200 sampleReq).1.body = Body.ok tr fn t.length a :=
  claim_c7_success_shape.1 extStructured200 sampleReq rfl

/-- Claim C8: the pipeline is deterministic — two requests with the same
file and the same `targetRole`, run against the same (deterministic)
externals, produce the same response, and in particular byte-identical
serialized JSON bodies. -/
theorem claim_c8_deterministic (ext : Ext) (r1 r2 : Req)
    (hfile : r1.file = r2.file) (hrole : r1.targetRole = r2.targetRole) :
    handler ext r1 = handler ext r2
  ∧ serializeBody (handler ext r1).1.body =
      serializeBody (handler ext r2).1.body := by
  obtain ⟨f1, t1⟩ := r1
  obtain ⟨f2, t2⟩ := r2
  have h1 : f1 = f2 := hfile
  have h2 : t1 = t2 := hrole
  subst h1
  subst h2
  exact ⟨rfl, rfl⟩

/-- Witness for C8: two syntactically distinct but componentwise equal
requests against the same externals give the same response and the same
serialized body. -/
theorem claim_c8_witness :
    handler extStructured200 sampleReq =
      handler extStructured200
        { file := some { buffer := "sample-resume-bytes".data,
                         originalname := "resume.pdf".data },
          targetRole := none }
  ∧ serializeBody (handler extStructured200 sampleReq).1.body =
      serializeBody (handler extStructured200
        { file := some { buffer := "sample-resume-bytes".data,
                         originalname := "resume.pdf".data },
          targetRole := none }).1.body :=
  claim_c8_deterministic extStructured200 sampleReq
    { file := some { buffer := "sample-resume-bytes".data,
                     originalname := "resume.pdf".data },
      targetRole := none } rfl rfl

/-- Claim C9: a present-but-empty `targetRole` is treated identically to
an absent one (the `||` default is a falsiness check), and on a
successful run both produce the default role in the AI prompt and in the
200 response's `targetRole` field. -/
theorem claim_c9_empty_targetRole (ext : Ext) (file : UploadedFile) :
    handler ext { file := some file, targetRole := some [] } =
      handler ext { file := some file, targetRole := none }
  ∧ (∀ t raw a, ext.pdf file.buffer = Except.ok (some t) → jsTrim t = t →
      t ≠ [] → 50 ≤ t.length →
      ext.ai (jsonOnlyPrompt (buildPrompt defaultTargetRole t)) =
        Except.ok raw →
      decodeAiReply raw = Except.ok a →
      handler ext { file := some file, targetRole := some [] } =
        (⟨200, Body.ok defaultTargetRole file.originalname t.length a⟩,
         [Event.pdfCall file.buffer,
          Event.aiCall (jsonOnlyPrompt (buildPrompt defaultTargetRole t))])) := by
  constructor
  · rfl
  · intro t raw a hp htr htne hlen hai hdec
    have hst : structuredText ext file.buffer = t := by
      unfold structuredText
      rw [hp]
      show jsTrim (if t = [] then [] else t) = t
      rw [if_neg htne]
      exact htr
    have hguard : ¬(t = [] ∨ (jsTrim t).length < 50) := by
      push_neg
      refine ⟨htne, ?_⟩
      rw [htr]
      exact hlen
    have ha : (askGeminiForJSON ext.ai (buildPrompt defaultTargetRole t)).1 =
        Except.ok a := by
      rw [askGeminiForJSON_fst ext.ai _ raw hai]
      exact hdec
    calc handler ext { file := some file, targetRole := some [] }
        = afterExtraction ext defaultTargetRole file
            (structuredText ext file.buffer) [Event.pdfCall file.buffer] :=
          handler_structured ext _ file rfl (by rw [hst]; exact htne)
      _ = afterExtraction ext defaultTargetRole file t
            [Event.pdfCall file.buffer] := by rw [hst]
      _ = (⟨200, Body.ok defaultTargetRole file.originalname t.length a⟩,
           [Event.pdfCall file.buffer,
            Event.aiCall (jsonOnlyPrompt (buildPrompt defaultTargetRole t))]) :=
          afterExtraction_ai_ok ext defaultTargetRole file t
            [Event.pdfCall file.buffer] a hguard ha

/-- Witness for C9: with 200 structured characters, the empty-string-role
request equals the absent-role request, and concretely returns the
default role in both the prompt event and the 200 body. -/
theorem claim_c9_witness :
    handler extStructured200 { file := some sampleFile, targetRole := some [] } =
      handler extStructured200 { file := some sampleFile, targetRole := none }
  ∧ handler extStructured200 { file := some sampleFile, targetRole := some [] } =
      (⟨200, Body.ok defaultTargetRole ("resume.pdf".data)
          (List.replicate 200 'A').length sampleAnalysis⟩,
       [Event.pdfCall sampleBuf,
        Event.aiCall (jsonOnlyPrompt
          (buildPrompt defaultTargetRole (List.replicate 200 'A')))]) :=
  ⟨(claim_c9_empty_targetRole extStructured200 sampleFile).1,
   (claim_c9_empty_targetRole extStructured200 sampleFile).2
     (List.replicate 200 'A') sampleReply sampleAnalysis rfl (by decide)
     (by decide) (by decide) rfl rfl⟩

/-- Claim C10: on the structured path the trimmed text is what reaches
the prompt and the `extractedChars` count, while on the OCR path the raw,
untrimmed OCR output reaches both (trimming is applied only inside the
length checks). -/
theorem claim_c10_trim_paths (ext : Ext) (req : Req) (file : UploadedFile)
    (hf : req.file = some file) :
    (∀ t0 raw a, ext.pdf file.buffer = Except.ok t0 →
      jsTrim (jsOrStr t0 []) ≠ [] →
      50 ≤ (jsTrim (jsTrim (jsOrStr t0 []))).length →
      ext.ai (jsonOnlyPrompt (buildPrompt
        (jsOrStr req.targetRole defaultTargetRole)
        (jsTrim (jsOrStr t0 [])))) = Except.ok raw →
      decodeAiReply raw = Except.ok a →
      handler ext req =
        (⟨200, Body.ok (jsOrStr req.targetRole defaultTargetRole)
            file.originalname (jsTrim (jsOrStr t0 [])).length a⟩,
         [Event.pdfCall file.buffer,
          Event.aiCall (jsonOnlyPrompt (buildPrompt
            (jsOrStr req.targetRole defaultTargetRole)
            (jsTrim (jsOrStr t0 []))))]))
  ∧ (∀ t raw a, structuredText ext file.buffer = [] →
      ext.ocr file.buffer = Except.ok t → t ≠ [] →
      50 ≤ (jsTrim t).length →
      ext.ai (jsonOnlyPrompt (buildPrompt
        (jsOrStr req.targetRole defaultTargetRole) t)) = Except.ok raw →
      decodeAiReply raw = Except.ok a →
      handler ext req =
        (⟨200, Body.ok (jsOrStr req.targetRole defaultTargetRole)
            file.originalname t.length a⟩,
         [Event.pdfCall file.buffer, Event.ocrCall file.buffer,
          Event.aiCall (jsonOnlyPrompt (buildPrompt
            (jsOrStr req.targetRole defaultTargetRole) t))])) := by
  constructor
  · intro t0 raw a hp hne hlen hai hdec
    have hst : structuredText ext file.buffer = jsTrim (jsOrStr t0 []) := by
      unfold structuredText
      rw [hp]
    have hguard : ¬(jsTrim (jsOrStr t0 []) = []
        ∨ (jsTrim (jsTrim (jsOrStr t0 []))).length < 50) := by
      push_neg
      exact ⟨hne, hlen⟩
    have ha : (askGeminiForJSON ext.ai (buildPrompt
        (jsOrStr req.targetRole defaultTargetRole)
        (jsTrim (jsOrStr t0 [])))).1 = Except.ok a := by
      rw [askGeminiForJSON_fst ext.ai _ raw hai]
      exact hdec
    calc handler ext req
        = afterExtraction ext (jsOrStr req.targetRole defaultTargetRole) file
            (structuredText ext file.buffer) [Event.pdfCall file.buffer] :=
          handler_structured ext req file hf (by rw [hst]; exact hne)
      _ = afterExtraction ext (jsOrStr req.targetRole defaultTargetRole) file
            (jsTrim (jsOrStr t0 [])) [Event.pdfCall file.buffer] := by
          rw [hst]
      _ = (⟨200, Body.ok (jsOrStr req.targetRole defaultTargetRole)
              file.originalname (jsTrim (jsOrStr t0 [])).length a⟩,
           [Event.pdfCall file.buffer,
            Event.aiCall (jsonOnlyPrompt (buildPrompt
              (jsOrStr req.targetRole defaultTargetRole)
              (jsTrim (jsOrStr t0 []))))]) :=
          afterExtraction_ai_ok ext _ file _ [Event.pdfCall file.buffer] a
            hguard ha
  · intro t raw a hs ho htne hlen hai hdec
    have ht1 : (extractTextFromImage ext.ocr file.buffer).1 = Except.ok t :=
      extractTextFromImage_of_ok ext.ocr file.buffer t ho
    have hne0 : ¬(t = [] ∨ (jsTrim t).length = 0) := by
      intro hor
      rcases hor with h0 | h0
      · exact htne h0
      · rw [h0] at hlen
        exact absurd hlen (by decide)
    have hguard : ¬(t = [] ∨ (jsTrim t).length < 50) := by
      push_neg
      exact ⟨htne, hlen⟩
    have ha : (askGeminiForJSON ext.ai (buildPrompt
        (jsOrStr req.targetRole defaultTargetRole) t)).1 = Except.ok a := by
      rw [askGeminiForJSON_fst ext.ai _ raw hai]
      exact hdec
    calc handler ext req
        = if t = [] ∨ (jsTrim t).length = 0 then
            (⟨400, Body.err msgNoTextFound⟩,
             [Event.pdfCall file.buffer, Event.ocrCall file.buffer])
          else
            afterExtraction ext (jsOrStr req.targetRole defaultTargetRole)
              file t [Event.pdfCall file.buffer, Event.ocrCall file.buffer] :=
          handler_fallback ext req file t hf hs ht1
      _ = afterExtraction ext (jsOrStr req.targetRole defaultTargetRole)
            file t [Event.pdfCall file.buffer, Event.ocrCall file.buffer] :=
          if_neg hne0
      _ = (⟨200, Body.ok (jsOrStr req.targetRole defaultTargetRole)
              file.originalname t.length a⟩,
           [Event.pdfCall file.buffer, Event.ocrCall file.buffer,
            Event.aiCall (jsonOnlyPrompt (buildPrompt
              (jsOrStr req.targetRole defaultTargetRole) t))]) :=
          afterExtraction_ai_ok ext _ file t
            [Event.pdfCall file.buffer, Event.ocrCall file.buffer] a hguard ha

/-- Witness for C10 on concrete runs: pdf text padded with whitespace is
trimmed before reaching the body (`extractedChars` 60, not 62), while a
61-character OCR output with a leading space reaches the body untrimmed
(`extractedChars` 61, not 60). -/
theorem claim_c10_witness :
    handler extStructuredPadded sampleReq =
      (⟨200, Body.ok defaultTargetRole ("resume.pdf".data)
          (jsTrim (jsOrStr (some (' ' :: (List.replicate 60 'C' ++ [' ']))) [])).length
          sampleAnalysis⟩,
       [Event.pdfCall sampleBuf,
        Event.aiCall (jsonOnlyPrompt (buildPrompt defaultTargetRole
          (jsTrim (jsOrStr (some (' ' :: (List.replicate 60 'C' ++ [' ']))) []))))])
  ∧ handler extOcrPath sampleReq =
      (⟨200, Body.ok defaultTargetRole ("resume.pdf".data)
          (' ' :: List.replicate 60 'B').length sampleAnalysis⟩,
       [Event.pdfCall sampleBuf, Event.ocrCall sampleBuf,
        Event.aiCall (jsonOnlyPrompt (buildPrompt defaultTargetRole
          (' ' :: List.replicate 60 'B')))]) :=
  ⟨(claim_c10_trim_paths extStructuredPadded sampleReq sampleFile rfl).1
     (some (' ' :: (List.replicate 60 'C' ++ [' ']))) sampleReply
     sampleAnalysis rfl (by decide) (by decide) rfl rfl,
   (claim_c10_trim_paths extOcrPath sampleReq sampleFile rfl).2
     (' ' :: List.replicate 60 'B') sampleReply sampleAnalysis (by decide)
     rfl (by decide) (by decide) rfl rfl⟩

end ResumeAnalyzer
